import Mathlib

/-!
Verification of the core of `src/app.py` (audio analyzer):
the mono loader `_read_audio_to_mono`, the inline metric extraction
(rms / peak / crest factor / LUFS proxy / spectral centroid / dominant
frequency, lines 316-326), and the advisory engine `professional_tips`
(lines 184-243).

Scalar sample values and thresholds are embedded as rationals (`ℚ`): every
numeric literal appearing in the source is an exact decimal, and the engine
only compares, so `ℚ` is a faithful model of the float comparisons.
Quantities produced through `sqrt`, `log10` and the FFT are embedded as real
numbers (`ℝ`).
-/

namespace AudioAnalyzer

/-- Stand-in for the Python numeric formatting (`%.2f`, `%.1f`) that the
source interpolates into tip strings. The rendered digits are presentation
only; no property verified here depends on them. -/
def fmtNum (q : ℚ) : String := toString q

/-- Shallow embedding of `professional_tips(lufs, peak, crest, centroid,
dominant_freq)` from `src/app.py` lines 184-243. Each Python
`tips.append` / `explanation.append` becomes a list concatenation in the
same branch; `if not main_tip` (Python string truthiness) becomes an
equality test with the empty string. Returns
`(main_tip, tips, explanation)` exactly as the source does. -/
def professional_tips (lufs peak crest centroid dominant_freq : ℚ) :
    String × List String × List String :=
  -- loudness dimension (lines 189-199)
  let tips1 : List String :=
    if lufs > -11.5 then
      ["High loudness (" ++ fmtNum lufs ++ " LUFS). It\x27s recommended to reduce master volume/limiter to about -13~-14 LUFS to avoid distortion and automatic volume reduction on streaming platforms."]
    else if lufs < -15.5 then
      ["Low loudness (" ++ fmtNum lufs ++ " LUFS). Consider raising volume or remastering to make the mix stand out."]
    else
      ["Average loudness is normal (" ++ fmtNum lufs ++ " LUFS) – great!"]
  let main1 : String :=
    if lufs > -11.5 then "Loudness is too high – possible distortion/volume reduction."
    else if lufs < -15.5 then "Loudness is low – mix won\x27t stand out compared to others."
    else ""
  let expl1 : List String :=
    if lufs > -11.5 then
      ["LUFS represents perceived loudness. Too high values will cause platforms like Spotify to reduce volume automatically, possibly causing distortion."]
    else if lufs < -15.5 then
      ["Low LUFS means the track sounds weak compared to others, especially in playlists."]
    else
      ["Loudness is within normal range, but make sure other parameters are good too."]
  -- peak dimension (lines 201-210)
  let tips2 : List String := tips1 ++
    (if peak > 0.98 then
      ["High peak value (" ++ fmtNum peak ++ "). Recommended to lower to -0.5dBFS to avoid clipping or distortion."]
    else if peak < 0.7 then
      ["Low peak value (" ++ fmtNum peak ++ "). Consider increasing gain to utilize dynamic range."]
    else
      ["Peak level is within a healthy range (" ++ fmtNum peak ++ ")."])
  let main2 : String :=
    if peak > 0.98 then
      (if main1 = "" then "High peak – risk of clipping/distortion." else main1)
    else main1
  let expl2 : List String := expl1 ++
    (if peak > 0.98 then
      ["High peak values mean audio signal touches upper limit, risking digital distortion."]
    else if peak < 0.7 then
      ["Low peak means mix isn\x27t utilizing full dynamic range – master gain can be raised."]
    else [])
  -- crest dimension (lines 212-221)
  let tips3 : List String := tips2 ++
    (if crest < 3 then
      ["Low Crest Factor (" ++ fmtNum crest ++ "). Mix is too compressed – try reducing compression/limiter."]
    else if crest > 6 then
      ["High Crest Factor (" ++ fmtNum crest ++ "). Mix is very dynamic – might need compression."]
    else
      ["Crest Factor is within normal range (" ++ fmtNum crest ++ ")."])
  let main3 : String :=
    if crest < 3 then
      (if main2 = "" then "Mix is over-compressed – loss of dynamics." else main2)
    else main2
  let expl3 : List String := expl2 ++
    (if crest < 3 then
      ["Low Crest Factor indicates small difference between peaks and noise floor, meaning heavy compression."]
    else if crest > 6 then
      ["High Crest Factor is typical for classical or soundtrack music; if not, mix might be too soft."]
    else [])
  -- dominant-frequency dimension (lines 223-230)
  let tips4 : List String := tips3 ++
    (if dominant_freq < 80 then
      ["Bass dominant frequency (" ++ fmtNum dominant_freq ++ "Hz). Check for muddy build-up in 20–80Hz range."]
    else if dominant_freq > 3000 then
      ["High frequency dominant (" ++ fmtNum dominant_freq ++ "Hz). Possibly too much high-end boost."]
    else
      ["Dominant frequency is within a healthy range (" ++ fmtNum dominant_freq ++ "Hz)."])
  let expl4 : List String := expl3 ++
    (if dominant_freq < 80 then
      ["Very low dominant frequency suggests bass is overpowering. Use headphones and EQ to check."]
    else if dominant_freq > 3000 then
      ["High dominant frequency can cause harshness and listener fatigue. Balance highs and lows."]
    else [])
  -- centroid dimension (lines 232-239)
  let tips5 : List String := tips4 ++
    (if centroid < 1400 then
      ["Low spectral centroid (" ++ fmtNum centroid ++ "Hz). Consider adding brightness (EQ around 2kHz-7kHz)."]
    else if centroid > 4800 then
      ["High spectral centroid (" ++ fmtNum centroid ++ "Hz). High-end is dominant – consider EQ adjustments."]
    else
      ["Spectral centroid is balanced (" ++ fmtNum centroid ++ "Hz)."])
  let expl5 : List String := expl4 ++
    (if centroid < 1400 then
      ["Low centroid results in a \x27dark\x27 mix; sometimes a bit of brightness is desired for modern sound."]
    else if centroid > 4800 then
      ["Too high centroid makes mix sound \x27sharp\x27 or \x27thin\x27, which can be unpleasant for long listening."]
    else [])
  -- final default (lines 241-243)
  let main_tip : String :=
    if main3 = "" then "Your mix is balanced and excellent! Keep it up." else main3
  (main_tip, tips5, expl5)

/-- Decoded audio as returned by `sf.read`: a 1-D array of samples, or a
2-D array of frames holding one sample per channel. -/
inductive DecodedAudio where
  | mono (samples : List ℚ)
  | multi (frames : List (List ℚ))

/-- Per-frame arithmetic mean across channels, the effect of
`np.mean(data_arr, axis=1)` on one frame. -/
def frameMean (fr : List ℚ) : ℚ := fr.sum / fr.length

/-- Downmix step of `_read_audio_to_mono` (src/app.py lines 177-178): a
multi-channel array is replaced by the per-index mean across channels. -/
def downmix : DecodedAudio → List ℚ
  | .mono samples => samples
  | .multi frames => frames.map frameMean

/-- Shallow embedding of `_read_audio_to_mono` (src/app.py lines 175-181)
after `sf.read` has produced the decoded array: downmix to mono, raise
`ValueError("Empty audio data.")` when the downmixed buffer has zero
samples, otherwise return the buffer with the sample rate. -/
def read_audio_to_mono (d : DecodedAudio) (samplerate : ℕ) :
    Except String (List ℚ × ℕ) :=
  let arr := downmix d
  if arr.length = 0 then .error "Empty audio data."
  else .ok (arr, samplerate)

/-- The eps guard used by the metric extraction (src/app.py line 317). -/
noncomputable def eps : ℝ := 1e-12

/-- Mean of the squared samples, `np.mean(data_arr**2)`. For the empty
buffer (excluded by the loader) the rational convention 0 / 0 = 0 applies. -/
def meanSq (buf : List ℚ) : ℚ := (buf.map (fun x => x ^ 2)).sum / buf.length

/-- The rms of src/app.py line 318: `np.sqrt(np.mean(data_arr**2))`. -/
noncomputable def rms (buf : List ℚ) : ℝ := Real.sqrt ((meanSq buf : ℚ) : ℝ)

/-- The peak of src/app.py line 319: `np.max(np.abs(data_arr))` when the
buffer is non-empty, `0.0` otherwise. -/
def npMaxAbs : List ℚ → ℚ
  | [] => 0
  | x :: xs => xs.foldl (fun a b => max a |b|) |x|

/-- The crest factor of src/app.py line 320: `peak / (rms + eps)`. -/
noncomputable def crest_factor (buf : List ℚ) : ℝ :=
  (npMaxAbs buf : ℝ) / (rms buf + eps)

/-- The LUFS proxy of src/app.py line 321: `20 * np.log10(rms + eps)`. -/
noncomputable def lufs_proxy (buf : List ℚ) : ℝ :=
  20 * Real.logb 10 (rms buf + eps)

/-- One-sided FFT magnitude spectrum of src/app.py line 322:
`np.abs(np.fft.rfft(data_arr))`, one magnitude for each bin
k = 0 .. n/2 of the real-input discrete Fourier transform. -/
noncomputable def rfftMag (buf : List ℚ) : List ℝ :=
  (List.range (buf.length / 2 + 1)).map (fun (k : ℕ) =>
    Complex.abs (∑ j in Finset.range buf.length,
      ((buf.getD j 0 : ℚ) : ℂ) *
        Complex.exp (-2 * (Real.pi : ℂ) * Complex.I * (j : ℂ) * (k : ℂ) / (buf.length : ℂ))))

/-- One-sided FFT bin frequencies of src/app.py line 323:
`np.fft.rfftfreq(n, 1/samplerate)`, bin k at k * samplerate / n Hz. -/
def rfftfreq (n : ℕ) (samplerate : ℕ) : List ℚ :=
  (List.range (n / 2 + 1)).map (fun (k : ℕ) => (k : ℚ) * samplerate / n)

/-- Index of the first occurrence of the largest element, the semantics of
`np.argmax` (0 on the empty list). -/
noncomputable def argmaxIdx : List ℝ → ℕ
  | [] => 0
  | x :: xs => if xs.foldl max x ≤ x then 0 else argmaxIdx xs + 1

/-- The dominant frequency of src/app.py line 326:
`freqs[np.argmax(spectrum)]` when the spectrum is non-empty, else `0.0`. -/
noncomputable def dominant_freq (buf : List ℚ) (samplerate : ℕ) : ℚ :=
  let spectrum := rfftMag buf
  if spectrum.length ≠ 0 then
    (rfftfreq buf.length samplerate).getD (argmaxIdx spectrum) 0
  else 0

/-- The spectral centroid of src/app.py lines 324-325:
`np.sum(freqs * spectrum) / (np.sum(spectrum) + eps)`. -/
noncomputable def spectral_centroid (buf : List ℚ) (samplerate : ℕ) : ℝ :=
  let spectrum := rfftMag buf
  let freqs := rfftfreq buf.length samplerate
  (((freqs.zip spectrum).map (fun p => (p.1 : ℝ) * p.2)).sum) / (spectrum.sum + eps)

/-- The record of scalar descriptors computed per upload
(src/app.py lines 316-326). -/
structure MetricSet where
  duration : ℚ
  rms : ℝ
  peak : ℚ
  crest_factor : ℝ
  lufs : ℝ
  centroid : ℝ
  dominant_freq : ℚ

/-- Metric extraction pipeline of src/app.py lines 316-326, bundling the six
scalar descriptors computed from the mono buffer and sample rate. -/
noncomputable def extract (buf : List ℚ) (samplerate : ℕ) : MetricSet :=
  { duration := (buf.length : ℚ) / samplerate
    rms := rms buf
    peak := npMaxAbs buf
    crest_factor := crest_factor buf
    lufs := lufs_proxy buf
    centroid := spectral_centroid buf samplerate
    dominant_freq := dominant_freq buf samplerate }

/-- Selection policy for the headline tip as the spec words it: scan the
dimensions in fixed order and take the first triggered main-tip candidate
(loudness high, loudness low, peak high, crest low), defaulting to the
generic success message. Written from the spec for comparison with
`professional_tips`. -/
def main_tip_first_match (lufs peak crest : ℚ) : String :=
  if lufs > -11.5 then "Loudness is too high – possible distortion/volume reduction."
  else if lufs < -15.5 then "Loudness is low – mix won\x27t stand out compared to others."
  else if peak > 0.98 then "High peak – risk of clipping/distortion."
  else if crest < 3 then "Mix is over-compressed – loss of dynamics."
  else "Your mix is balanced and excellent! Keep it up."

/-- Number of dimensions among peak, crest, dominant frequency and centroid
whose value lies outside its healthy band, in the order the engine
evaluates them. -/
def out_of_band_count (peak crest centroid dominant_freq : ℚ) : ℕ :=
  (if peak > 0.98 ∨ peak < 0.7 then 1 else 0) +
  (if crest < 3 ∨ crest > 6 then 1 else 0) +
  (if dominant_freq < 80 ∨ dominant_freq > 3000 then 1 else 0) +
  (if centroid < 1400 ∨ centroid > 4800 then 1 else 0)

theorem le_foldl_max (xs : List ℝ) (x : ℝ) : x ≤ xs.foldl max x := by
  induction xs generalizing x with
  | nil => exact le_refl x
  | cons y ys ih => exact le_trans (le_max_left x y) (ih (max x y))

theorem mem_le_foldl_max (xs : List ℝ) (x : ℝ) : ∀ y ∈ xs, y ≤ xs.foldl max x := by
  induction xs generalizing x with
  | nil => intro y hy; cases hy
  | cons z zs ih =>
    intro y hy
    rcases List.mem_cons.1 hy with h | h
    · subst h; exact le_trans (le_max_right x y) (le_foldl_max zs (max x y))
    · exact ih (max x z) y h

theorem foldl_max_le (xs : List ℝ) (x b : ℝ) (hx : x ≤ b) (h : ∀ y ∈ xs, y ≤ b) :
    xs.foldl max x ≤ b := by
  induction xs generalizing x with
  | nil => exact hx
  | cons z zs ih =>
    exact ih (max x z) (max_le hx (h z (List.mem_cons_self z zs)))
      (fun y hy => h y (List.mem_cons_of_mem z hy))

theorem argmaxIdx_lt_length (l : List ℝ) (hl : l ≠ []) : argmaxIdx l < l.length := by
  induction l with
  | nil => exact absurd rfl hl
  | cons x xs ih =>
    rw [argmaxIdx]
    split_ifs with h
    · simp
    · have hxs : xs ≠ [] := by
        intro he
        rw [he] at h
        exact h (le_refl x)
      have := ih hxs
      simp only [List.length_cons]
      omega

theorem argmaxIdx_is_max (l : List ℝ) : ∀ y ∈ l, y ≤ l.getD (argmaxIdx l) 0 := by
  induction l with
  | nil => intro y hy; cases hy
  | cons x xs ih =>
    intro y hy
    rw [argmaxIdx]
    split_ifs with h
    · rcases List.mem_cons.1 hy with rfl | hmem
      · simp
      · simpa using le_trans (mem_le_foldl_max xs x y hmem) h
    · have hxM : x ≤ xs.getD (argmaxIdx xs) 0 := by
        by_contra hx
        push_neg at hx
        exact h (foldl_max_le xs x x (le_refl x)
          (fun z hz => le_trans (ih z hz) (le_of_lt hx)))
      rcases List.mem_cons.1 hy with rfl | hmem
      · simpa using hxM
      · simpa using ih y hmem

theorem argmaxIdx_first (l : List ℝ) :
    ∀ j < argmaxIdx l, l.getD j 0 < l.getD (argmaxIdx l) 0 := by
  induction l with
  | nil => intro j hj; rw [argmaxIdx] at hj; omega
  | cons x xs ih =>
    intro j hj
    rw [argmaxIdx] at hj ⊢
    split_ifs at hj ⊢ with h
    · omega
    · have hxM : x < xs.getD (argmaxIdx xs) 0 := by
        by_contra hx
        push_neg at hx
        exact h (foldl_max_le xs x x (le_refl x)
          (fun z hz => le_trans (argmaxIdx_is_max xs z hz) hx))
      cases j with
      | zero => simpa using hxM
      | succ k =>
        have hk : k < argmaxIdx xs := by omega
        simpa using ih k hk

/-- C3: the loader raises the empty-audio error exactly when the downmixed
buffer has zero samples; whenever it has one or more samples, the loader
returns the buffer with the sample rate and no error. -/
theorem loader_empty_error_iff (d : DecodedAudio) (sr : ℕ) :
    (read_audio_to_mono d sr = .error "Empty audio data." ↔ (downmix d).length = 0) ∧
    ((downmix d).length ≠ 0 → read_audio_to_mono d sr = .ok (downmix d, sr)) := by
  simp only [read_audio_to_mono]
  constructor
  · constructor
    · intro h
      by_contra hne
      rw [if_neg hne] at h
      cases h
    · intro h
      rw [if_pos h]
  · intro h
    rw [if_neg h]

/-- Witness for C3: a one-sample mono input decodes without error. -/
theorem loader_empty_error_iff_witness :
    read_audio_to_mono (.mono [1]) 44100 = .ok ([1], 44100) :=
  (loader_empty_error_iff (.mono [1]) 44100).2 (by decide)

theorem meanSq_replicate_zero (n : ℕ) : meanSq (List.replicate n 0) = 0 := by
  simp [meanSq]

theorem foldl_maxabs_replicate_zero (m : ℕ) :
    (List.replicate m (0 : ℚ)).foldl (fun a b => max a |b|) 0 = 0 := by
  induction m with
  | zero => rfl
  | succ k ih => simpa [List.replicate_succ] using ih

theorem npMaxAbs_replicate_zero (n : ℕ) : npMaxAbs (List.replicate n 0) = 0 := by
  cases n with
  | zero => rfl
  | succ m =>
    rw [List.replicate_succ, npMaxAbs]
    simpa using foldl_maxabs_replicate_zero m

theorem rms_replicate_zero (n : ℕ) : rms (List.replicate n 0) = 0 := by
  rw [rms, meanSq_replicate_zero]
  simpa using Real.sqrt_zero

/-- C4: on an all-zero buffer of any positive length, extraction yields
rms = 0, peak = 0, lufs proxy = 20 * log10(1e-12), and crest factor
exactly 0 (the zero peak divided by the eps guard), with every quantity
well defined. -/
theorem silence_metrics (n : ℕ) (hn : 1 ≤ n) :
    rms (List.replicate n 0) = 0 ∧
    npMaxAbs (List.replicate n 0) = 0 ∧
    lufs_proxy (List.replicate n 0) = 20 * Real.logb 10 (1e-12) ∧
    crest_factor (List.replicate n 0) = 0 := by
  refine ⟨rms_replicate_zero n, npMaxAbs_replicate_zero n, ?_, ?_⟩
  · rw [lufs_proxy, rms_replicate_zero, eps, zero_add]
  · rw [crest_factor, rms_replicate_zero, npMaxAbs_replicate_zero]
    norm_num [eps]

/-- Witness for C4 at the one-sample silent buffer. -/
theorem silence_metrics_witness :
    1 ≤ 1 ∧
    (rms (List.replicate 1 0) = 0 ∧
     npMaxAbs (List.replicate 1 0) = 0 ∧
     lufs_proxy (List.replicate 1 0) = 20 * Real.logb 10 (1e-12) ∧
     crest_factor (List.replicate 1 0) = 0) :=
  ⟨le_refl 1, silence_metrics 1 (le_refl 1)⟩

/-- C5 counterexample: the one-sample silent buffer satisfies
peak ≥ rms ≥ 0, yet its crest factor is 0 / 1e-12 = 0 < 1, refuting the
claim that peak ≥ rms ≥ 0 forces a crest factor of at least 1. -/
theorem crest_ge_one_counterexample :
    rms [0] ≤ (npMaxAbs [0] : ℝ) ∧ 0 ≤ rms [0] ∧ crest_factor [0] < 1 := by
  have h0 : rms [0] = 0 := by
    simpa using rms_replicate_zero 1
  have hp : npMaxAbs [0] = 0 := by
    simpa using npMaxAbs_replicate_zero 1
  refine ⟨by rw [h0, hp]; norm_num, by rw [h0], ?_⟩
  have hc : crest_factor [0] = 0 := by
    rw [crest_factor, h0, hp]
    norm_num [eps]
  rw [hc]
  norm_num

/-- C5 (amended): the crest factor is at least 1 whenever the peak exceeds
rms by at least the eps guard 1e-12; without that margin the guarded
denominator can push the ratio below 1 (to 0 at a silent buffer). -/
theorem crest_ge_one_of_margin (buf : List ℚ)
    (h : rms buf + eps ≤ (npMaxAbs buf : ℝ)) :
    1 ≤ crest_factor buf := by
  have hsq : 0 ≤ rms buf := Real.sqrt_nonneg _
  have heps : (0 : ℝ) < eps := by norm_num [eps]
  have hpos : 0 < rms buf + eps := by linarith
  rw [crest_factor]
  exact (one_le_div hpos).mpr h

/-- Witness for C5 (amended) at the buffer [2, 0, 0, 0], whose rms is 1 and
peak is 2. -/
theorem crest_ge_one_of_margin_witness :
    rms [2, 0, 0, 0] + eps ≤ (npMaxAbs [2, 0, 0, 0] : ℝ) ∧
    1 ≤ crest_factor [2, 0, 0, 0] := by
  have h1 : meanSq [2, 0, 0, 0] = 1 := by
    norm_num [meanSq]
  have h2 : rms [2, 0, 0, 0] = 1 := by
    rw [rms, h1]
    simpa using Real.sqrt_one
  have h3 : npMaxAbs [2, 0, 0, 0] = 2 := by
    norm_num [npMaxAbs]
  have hh : rms [2, 0, 0, 0] + eps ≤ (npMaxAbs [2, 0, 0, 0] : ℝ) := by
    rw [h2, h3]
    norm_num [eps]
  exact ⟨hh, crest_ge_one_of_margin _ hh⟩

/-- C6: the loader downmixes a multi-channel input by the per-index
arithmetic mean across channels, and a 2-channel input whose channels are
identical loads to exactly the mono buffer, hence yields exactly the same
MetricSet. -/
theorem downmix_mean_and_identical_channels (samples : List ℚ) (sr : ℕ) :
    (∀ frames : List (List ℚ), downmix (.multi frames) = frames.map frameMean) ∧
    downmix (.multi (samples.map (fun x => [x, x]))) = samples ∧
    read_audio_to_mono (.multi (samples.map (fun x => [x, x]))) sr =
      read_audio_to_mono (.mono samples) sr ∧
    extract (downmix (.multi (samples.map (fun x => [x, x])))) sr =
      extract samples sr := by
  have hdup : downmix (.multi (samples.map (fun x => [x, x]))) = samples := by
    show (samples.map (fun x => [x, x])).map frameMean = samples
    rw [List.map_map]
    have hid : (frameMean ∘ fun x : ℚ => [x, x]) = id := by
      funext x
      show frameMean [x, x] = x
      rw [frameMean]
      simp
    rw [hid, List.map_id]
  have h2 : (samples.map (fun x => [x, x])).map frameMean = samples := hdup
  refine ⟨fun frames => rfl, hdup, ?_, by rw [hdup]⟩
  simp only [read_audio_to_mono, downmix, h2]

/-- C7: for a non-empty buffer, the dominant frequency is the one-sided FFT
bin frequency at the index of the largest spectral magnitude, and that
index is the first occurrence of the maximum (ties resolved by lowest
index). -/
theorem dominant_freq_argmax (buf : List ℚ) (sr : ℕ) (h : buf ≠ []) :
    ∃ i : ℕ, i < (rfftMag buf).length ∧
      dominant_freq buf sr = (rfftfreq buf.length sr).getD i 0 ∧
      (∀ y ∈ rfftMag buf, y ≤ (rfftMag buf).getD i 0) ∧
      (∀ j < i, (rfftMag buf).getD j 0 < (rfftMag buf).getD i 0) := by
  have hlen : (rfftMag buf).length = buf.length / 2 + 1 := by
    simp only [rfftMag, List.length_map, List.length_range]
  have hne : (rfftMag buf).length ≠ 0 := by
    rw [hlen]; omega
  refine ⟨argmaxIdx (rfftMag buf), ?_, ?_, argmaxIdx_is_max _, argmaxIdx_first _⟩
  · apply argmaxIdx_lt_length
    intro he
    rw [he] at hne
    exact hne rfl
  · simp only [dominant_freq]
    rw [if_pos hne]

/-- Witness for C7 at the one-sample buffer with sample rate 1. -/
theorem dominant_freq_argmax_witness :
    ([1] : List ℚ) ≠ [] ∧
    (∃ i : ℕ, i < (rfftMag [1]).length ∧
      dominant_freq [1] 1 = (rfftfreq (List.length [(1 : ℚ)]) 1).getD i 0 ∧
      (∀ y ∈ rfftMag [1], y ≤ (rfftMag [1]).getD i 0) ∧
      (∀ j < i, (rfftMag [1]).getD j 0 < (rfftMag [1]).getD i 0)) :=
  ⟨by simp, dominant_freq_argmax [1] 1 (by simp)⟩

theorem ne_empty_loud_high :
    ("Loudness is too high – possible distortion/volume reduction." : String) ≠ "" := by decide

theorem ne_empty_loud_low :
    ("Loudness is low – mix won\x27t stand out compared to others." : String) ≠ "" := by decide

theorem ne_empty_peak_high :
    ("High peak – risk of clipping/distortion." : String) ≠ "" := by decide

theorem ne_empty_crest_low :
    ("Mix is over-compressed – loss of dynamics." : String) ≠ "" := by decide

theorem ne_empty_success :
    ("Your mix is balanced and excellent! Keep it up." : String) ≠ "" := by decide

theorem len_block_three {c1 c2 : Prop} [Decidable c1] [Decidable c2] (a b c : String) :
    (if c1 then [a] else if c2 then [b] else [c]).length = 1 := by
  split_ifs <;> rfl

theorem len_block_two {c1 c2 : Prop} [Decidable c1] [Decidable c2] (a b : String) :
    (if c1 then [a] else if c2 then [b] else ([] : List String)).length =
      if c1 ∨ c2 then 1 else 0 := by
  split_ifs with h1 h2 h3 <;> simp_all

/-- Shared helper: the tips list always has exactly five entries, one per
dimension. -/
theorem tips_length_eq (lufs peak crest centroid dominant_freq : ℚ) :
    (professional_tips lufs peak crest centroid dominant_freq).2.1.length = 5 := by
  simp only [professional_tips, List.length_append, len_block_three]

/-- Shared helper: the explanations list has one entry from the loudness
dimension (every branch) plus one entry per triggered dimension among the
other four (triggered branches only). -/
theorem expl_length_eq (lufs peak crest centroid dominant_freq : ℚ) :
    (professional_tips lufs peak crest centroid dominant_freq).2.2.length =
      1 + out_of_band_count peak crest centroid dominant_freq := by
  simp only [professional_tips, out_of_band_count, List.length_append, len_block_three,
    len_block_two, Nat.add_assoc]

/-- C9: for every MetricSet input, the explanations list length equals 1 plus
the number of dimensions among peak, crest, dominant frequency and centroid
outside their healthy bands; loudness contributes an explanation in every
branch, the other four only in their triggered branches. -/
theorem advise_expl_length_law (lufs peak crest centroid dominant_freq : ℚ) :
    (professional_tips lufs peak crest centroid dominant_freq).2.2.length =
      1 + out_of_band_count peak crest centroid dominant_freq :=
  expl_length_eq lufs peak crest centroid dominant_freq

/-- C1 counterexample: at the all-healthy input lufs = -13, peak = 0.85,
crest = 4.5, centroid = 2000, dominant = 200 the engine returns an
explanations list of length 1, not 5, refuting the claim that tips and
explanations always both have exactly 5 elements. -/
theorem advise_expl_not_five_counterexample :
    (professional_tips (-13) (17/20) (9/2) 2000 200).2.2.length = 1 ∧
    (professional_tips (-13) (17/20) (9/2) 2000 200).2.2.length ≠ 5 := by
  constructor <;> norm_num [professional_tips]

/-- C1 (amended): for every MetricSet input the tips list has exactly 5
elements, one per dimension in the fixed order, while the explanations list
has between 1 and 5 elements: the loudness dimension contributes an
explanation in every branch and the other four dimensions contribute one
only when triggered, so the two lists are parallel only when all four other
dimensions trigger. -/
theorem advise_tips_five_expl_bounded (lufs peak crest centroid dominant_freq : ℚ) :
    (professional_tips lufs peak crest centroid dominant_freq).2.1.length = 5 ∧
    1 ≤ (professional_tips lufs peak crest centroid dominant_freq).2.2.length ∧
    (professional_tips lufs peak crest centroid dominant_freq).2.2.length ≤ 5 := by
  refine ⟨tips_length_eq _ _ _ _ _, ?_, ?_⟩ <;>
    rw [expl_length_eq] <;> unfold out_of_band_count <;> split_ifs <;> norm_num

/-- C2: the headline tip is chosen first-match-wins over the fixed dimension
order: the first triggered dimension carrying a main-tip candidate (loudness
high, loudness low, peak high, crest low) sets it, later candidates are
ignored, and with no candidate it is the generic success message; in
particular lufs = -13, peak = 0.5, crest = 2, centroid = 2000,
dominant = 200 yields the over-compressed message. -/
theorem advise_main_tip_first_match_wins (lufs peak crest centroid dominant_freq : ℚ) :
    (professional_tips lufs peak crest centroid dominant_freq).1 =
      main_tip_first_match lufs peak crest ∧
    (professional_tips (-13) (1/2) 2 2000 200).1 =
      "Mix is over-compressed – loss of dynamics." := by
  constructor
  · simp only [professional_tips, main_tip_first_match]
    split_ifs <;> simp_all [ne_empty_loud_high, ne_empty_loud_low, ne_empty_peak_high,
      ne_empty_crest_low]
  · norm_num [professional_tips, ne_empty_crest_low]

/-- C8: the advisory engine is deterministic: two calls whose five metric
inputs agree componentwise return identical results. -/
theorem advise_deterministic (l₁ p₁ c₁ ce₁ d₁ l₂ p₂ c₂ ce₂ d₂ : ℚ)
    (hl : l₁ = l₂) (hp : p₁ = p₂) (hc : c₁ = c₂) (hce : ce₁ = ce₂) (hd : d₁ = d₂) :
    professional_tips l₁ p₁ c₁ ce₁ d₁ = professional_tips l₂ p₂ c₂ ce₂ d₂ := by
  rw [hl, hp, hc, hce, hd]

/-- Witness for C8 at a concrete input, each equality hypothesis discharged
by rfl. -/
theorem advise_deterministic_witness :
    professional_tips (-13) (17/20) (9/2) 2000 200 =
      professional_tips (-13) (17/20) (9/2) 2000 200 :=
  advise_deterministic (-13) (17/20) (9/2) 2000 200 (-13) (17/20) (9/2) 2000 200
    rfl rfl rfl rfl rfl

/-- C10: the headline tip always lies in the closed set of exactly five
strings that the engine can produce, and is never empty. -/
theorem advise_main_tip_closed_set (lufs peak crest centroid dominant_freq : ℚ) :
    (professional_tips lufs peak crest centroid dominant_freq).1 ∈
      ["Loudness is too high – possible distortion/volume reduction.",
       "Loudness is low – mix won\x27t stand out compared to others.",
       "High peak – risk of clipping/distortion.",
       "Mix is over-compressed – loss of dynamics.",
       "Your mix is balanced and excellent! Keep it up."] ∧
    (professional_tips lufs peak crest centroid dominant_freq).1 ≠ "" := by
  simp only [professional_tips]
  split_ifs <;> simp_all [ne_empty_loud_high, ne_empty_loud_low, ne_empty_peak_high,
    ne_empty_crest_low, ne_empty_success]

end AudioAnalyzer
